import Mathlib

/-! # Bootstrap layer of the OpenTelemetry operator

A shallow embedding of `main.go`, `pkg/cmd/root.go` and `apis/v1alpha1/config.go`.

* Go strings are Lean strings, Go slices are `Option (List _)` (`none` is the nil slice),
  Go maps are `Option (List (String × _))` with at most one entry per key (`none` is the
  nil map), Go errors are values of `GoError`.
* The libraries the bootstrap code calls into (cobra, controller-runtime, zap, the
  auto-detection package, the webhook setup of the two resource kinds) are not part of the
  embedded sources.  Every answer they give is a field of `World`; the code of `main` is
  embedded as a function of that record.
* `os.Exit` ends a run: `main` returns the process state at that point together with the
  exit code.
-/

set_option autoImplicit false

namespace OtelOperator

/-! ## Go values -/

/-- A Go error: a plain message, or `fmt.Errorf("<msg>: %w", err)` around another error. -/
inductive GoError where
  | new (msg : String)
  | wrap (msg : String) (err : GoError)
  deriving DecidableEq, Repr

namespace GoError

/-- The text of `err.Error()`. -/
def Error : GoError → String
  | new msg => msg
  | wrap msg err => msg ++ ": " ++ err.Error

/-- The error reached by `errors.Unwrap`. -/
def Unwrap : GoError → Option GoError
  | new _ => none
  | wrap _ err => some err

end GoError

/-- The text of `fmt.Sprintf("<path>:%s", version)`. -/
def Sprintf (path version : String) : String :=
  path ++ ":" ++ version

/-- The function `strings.Contains`: `substr` occurs in `s`. -/
def strings.Contains (s substr : String) : Bool :=
  decide (substr.data <:+: s.data)

/-- Splitting a character list at every occurrence of `sep`. -/
def strings.splitChars (sep : Char) : List Char → List (List Char)
  | [] => [[]]
  | c :: cs =>
    if c = sep then [] :: strings.splitChars sep cs
    else
      match strings.splitChars sep cs with
      | [] => [[c]]
      | piece :: pieces => (c :: piece) :: pieces

/-- The function `strings.Split` for a separator of one character, as `main` calls it
(`strings.Split(watchNamespace, ",")`). -/
def strings.Split (s : String) (sep : Char) : List String :=
  (strings.splitChars sep s.data).map String.mk

/-- The process environment: the value of a variable, when it is set. -/
abbrev Environ := String → Option String

/-- The function `os.LookupEnv`: the value, and whether the variable is set. -/
def os.LookupEnv (env : Environ) (key : String) : String × Bool :=
  match env key with
  | some value => (value, true)
  | none => ("", false)

/-- The function `os.Getenv`: the value, or the empty string when the variable is unset. -/
def os.Getenv (env : Environ) (key : String) : String :=
  (os.LookupEnv env key).1

/-- The struct `cache.Config` of controller-runtime; `main` only builds its zero value. -/
structure cache.Config where
  deriving DecidableEq, Repr

/-- The allocated table of a Go `map[string]V`: one entry per key. -/
abbrev MapTable (V : Type) := List (String × V)

/-- The assignment `m[k] = v` on an allocated map. -/
def MapTable.set {V : Type} : MapTable V → String → V → MapTable V
  | [], k, v => [(k, v)]
  | (k', v') :: rest, k, v =>
    if k' = k then (k, v) :: rest else (k', v') :: MapTable.set rest k v

/-- The keys of an allocated map. -/
def MapTable.keys {V : Type} (m : MapTable V) : List String :=
  m.map Prod.fst

/-- A Go `map[string]V`: `none` is the nil map. -/
abbrev GoMap (V : Type) := Option (MapTable V)

/-! ## `internal/version` -/

/-- Modelled from the spec: the version record of `internal/version`, whose declaration
is not among the sources; the fields are the ones `main` and `readConfig` read (the
operator's own version, build data, and one version string per component). -/
structure version.Version where
  Operator : String
  BuildDate : String
  Go : String
  OpenTelemetryCollector : String
  TargetAllocator : String
  OperatorOpAMPBridge : String
  AutoInstrumentationJava : String
  AutoInstrumentationNodeJS : String
  AutoInstrumentationPython : String
  AutoInstrumentationDotNet : String
  AutoInstrumentationGo : String
  AutoInstrumentationApacheHttpd : String
  deriving DecidableEq, Repr

/-! ## `apis/v1alpha1/config.go` -/

/-- The struct `TlsConfig`. -/
structure v1alpha1.TlsConfig where
  MinVersion : String
  CipherSuites : Option (List String)
  deriving DecidableEq, Repr

/-- The struct `ProjectConfig` (the embedded `TypeMeta` carries no data the bootstrap
reads). -/
structure v1alpha1.ProjectConfig where
  MetricsAddr : String
  ProbeAddr : String
  PprofAddr : String
  EnableLeaderElection : Bool
  CollectorImage : String
  TargetAllocatorImage : String
  OperatorOpAMPBridgeImage : String
  AutoInstrumentationJava : String
  AutoInstrumentationNodeJS : String
  AutoInstrumentationPython : String
  AutoInstrumentationDotNet : String
  AutoInstrumentationGo : String
  AutoInstrumentationApacheHttpd : String
  LabelsFilter : Option (List String)
  WebhookPort : Int
  TlsOpt : v1alpha1.TlsConfig
  LogLevel : String
  deriving DecidableEq, Repr

/-- The method `ProjectConfig.Validate`: `return nil`. -/
def v1alpha1.ProjectConfig.Validate (_c : v1alpha1.ProjectConfig) : Option GoError :=
  none

/-- The struct `ControllerManagerConfigurationSpec` of controller-runtime; the bootstrap
only builds its zero value. -/
structure v1alpha1.ControllerManagerConfigurationSpec where
  deriving DecidableEq, Repr

/-- The method `ProjectConfig.Complete`: the zero specification and no error. -/
def v1alpha1.ProjectConfig.Complete (_p : v1alpha1.ProjectConfig) :
    v1alpha1.ControllerManagerConfigurationSpec × Option GoError :=
  ({}, none)

/-! ## `pkg/cmd/root.go` -/

/-- The package variable `scheme` after `init`: the type groups added to it, in order. -/
def cmd.scheme : List String :=
  ["clientgoscheme", "otelv1alpha1", "routev1", "monitoringv1"]

/-- The struct `metricsserver.Options`, restricted to the field the bootstrap sets. -/
structure metricsserver.Options where
  BindAddress : String
  deriving DecidableEq, Repr

/-- The struct `ctrl.Options`, restricted to the fields the bootstrap sets. -/
structure ctrl.Options where
  Scheme : List String
  Metrics : metricsserver.Options
  deriving DecidableEq, Repr

/-- The struct `RootConfig`. -/
structure cmd.RootConfig where
  Options : ctrl.Options
  CtrlConfig : v1alpha1.ProjectConfig
  deriving DecidableEq, Repr

/-- The call `options.AndFrom(ctrl.ConfigFile().AtPath(path).OfKind(&ctrlConfig))` of
controller-runtime: it reads the file at `path`, decodes it into `ctrlConfig` and merges
into `options`, or fails. -/
abbrev ConfigLoader :=
  ctrl.Options → String → v1alpha1.ProjectConfig →
    Except GoError (ctrl.Options × v1alpha1.ProjectConfig)

/-- The struct `cobra.Command`, as far as the bootstrap uses it: its context holds at most
one value under `RootConfigKey`, and `configFile` is the variable bound to the persistent
flag `config`. -/
structure cobra.Command where
  Use : String
  SilenceUsage : Bool
  ctx : Option cmd.RootConfig
  configFile : String
  deriving DecidableEq, Repr

/-- The default controller configuration that `readConfig` builds from the version
record; `LogLevel`, which the struct literal does not name, has the zero value. -/
def cmd.defaultCtrlConfig (v : version.Version) : v1alpha1.ProjectConfig where
  MetricsAddr := ":8080"
  ProbeAddr := ":8081"
  PprofAddr := ""
  EnableLeaderElection := false
  CollectorImage :=
    Sprintf "ghcr.io/open-telemetry/opentelemetry-collector-releases/opentelemetry-collector"
      v.OpenTelemetryCollector
  TargetAllocatorImage :=
    Sprintf "ghcr.io/open-telemetry/opentelemetry-operator/target-allocator" v.TargetAllocator
  OperatorOpAMPBridgeImage :=
    Sprintf "ghcr.io/open-telemetry/opentelemetry-operator/operator-opamp-bridge"
      v.OperatorOpAMPBridge
  AutoInstrumentationJava :=
    Sprintf "ghcr.io/open-telemetry/opentelemetry-operator/autoinstrumentation-java"
      v.AutoInstrumentationJava
  AutoInstrumentationNodeJS :=
    Sprintf "ghcr.io/open-telemetry/opentelemetry-operator/autoinstrumentation-nodejs"
      v.AutoInstrumentationNodeJS
  AutoInstrumentationPython :=
    Sprintf "ghcr.io/open-telemetry/opentelemetry-operator/autoinstrumentation-python"
      v.AutoInstrumentationPython
  AutoInstrumentationDotNet :=
    Sprintf "ghcr.io/open-telemetry/opentelemetry-operator/autoinstrumentation-dotnet"
      v.AutoInstrumentationDotNet
  AutoInstrumentationGo :=
    Sprintf "ghcr.io/open-telemetry/opentelemetry-go-instrumentation/autoinstrumentation-go"
      v.AutoInstrumentationGo
  AutoInstrumentationApacheHttpd :=
    Sprintf "ghcr.io/open-telemetry/opentelemetry-operator/autoinstrumentation-apache-httpd"
      v.AutoInstrumentationApacheHttpd
  LabelsFilter := some []
  WebhookPort := 9443
  TlsOpt := { MinVersion := "VersionTLS12", CipherSuites := none }
  LogLevel := ""

/-- The function `readConfig`: the error it returns and the command it leaves behind. -/
def cmd.readConfig (load : ConfigLoader) (c : cobra.Command) (configFile : String)
    (v : version.Version) : Option GoError × cobra.Command :=
  let ctrlConfig := cmd.defaultCtrlConfig v
  let options : ctrl.Options :=
    { Scheme := cmd.scheme, Metrics := { BindAddress := ctrlConfig.MetricsAddr } }
  let loaded : Except GoError (ctrl.Options × v1alpha1.ProjectConfig) :=
    if configFile ≠ "" then load options configFile ctrlConfig
    else .ok (options, ctrlConfig)
  match loaded with
  | .error err => (some (.wrap "unable to load the config file" err), c)
  | .ok (options, ctrlConfig) =>
    match ctrlConfig.Validate with
    | some err => (some (.wrap "controller config validation failed" err), c)
    | none => (none, { c with ctx := some { Options := options, CtrlConfig := ctrlConfig } })

/-- The function `NewRootCommand`: the flag variable `configFile` still holds its zero
value when `readConfig` runs, and the result of `readConfig` is dropped. -/
def cmd.NewRootCommand (load : ConfigLoader) (v : version.Version) : cobra.Command :=
  let configFile : String := ""
  let rootCmd : cobra.Command :=
    { Use := "opentelemetry-operator", SilenceUsage := true, ctx := none,
      configFile := configFile }
  (cmd.readConfig load rootCmd configFile v).2

/-- The method `Command.Execute` of cobra on the root command, which has no `Run`
function: the flags are parsed, so a `config` flag on the command line is written to the
variable bound to it, and the library's verdict is returned; nothing in `Execute` calls
back into `pkg/cmd`, and the context of the command is left as it is. -/
def cobra.Command.Execute (c : cobra.Command) (configFlag : Option String)
    (verdict : Option GoError) : Option GoError × cobra.Command :=
  (verdict, { c with configFile := configFlag.getD c.configFile })

/-! ## `internal/config` and the collaborators built by `main` -/

/-- Modelled from the spec: the operator configuration of `internal/config`, whose
declaration is not among the sources: the resolved values handed to every downstream
component, one per `With...` option that `main` passes to `config.New` (the logger and
the auto-detection handle carry no data). -/
structure config.Config where
  version : version.Version
  collectorImage : String
  targetAllocatorImage : String
  operatorOpAMPBridgeImage : String
  autoInstrumentationJavaImage : String
  autoInstrumentationNodeJSImage : String
  autoInstrumentationPythonImage : String
  autoInstrumentationDotNetImage : String
  autoInstrumentationGoImage : String
  autoInstrumentationApacheHttpdImage : String
  labelsFilter : Option (List String)
  deriving DecidableEq, Repr

namespace config.Config

/-- Modelled from the spec: the accessor of `internal/config` for the configured default
Java image. -/
def AutoInstrumentationJavaImage (c : config.Config) : String :=
  c.autoInstrumentationJavaImage

/-- Modelled from the spec: the accessor of `internal/config` for the configured default
NodeJS image. -/
def AutoInstrumentationNodeJSImage (c : config.Config) : String :=
  c.autoInstrumentationNodeJSImage

/-- Modelled from the spec: the accessor of `internal/config` for the configured default
Python image. -/
def AutoInstrumentationPythonImage (c : config.Config) : String :=
  c.autoInstrumentationPythonImage

/-- Modelled from the spec: the accessor of `internal/config` for the configured default
DotNet image. -/
def AutoInstrumentationDotNetImage (c : config.Config) : String :=
  c.autoInstrumentationDotNetImage

/-- Modelled from the spec: the accessor of `internal/config` for the configured default
Go image. -/
def AutoInstrumentationGoImage (c : config.Config) : String :=
  c.autoInstrumentationGoImage

/-- Modelled from the spec: the accessor of `internal/config` for the configured default
Apache HTTPD image. -/
def AutoInstrumentationApacheHttpdImage (c : config.Config) : String :=
  c.autoInstrumentationApacheHttpdImage

end config.Config

/-- The struct `collectorupgrade.VersionUpgrade` as `addDependencies` fills it (the
logger, client and recorder are handles). -/
structure collectorupgrade.VersionUpgrade where
  Version : version.Version
  deriving DecidableEq, Repr

/-- The struct `instrumentationupgrade.InstrumentationUpgrade` as `addDependencies` fills
it (the logger, client and recorder are handles). -/
structure instrumentationupgrade.InstrumentationUpgrade where
  DefaultAutoInstJava : String
  DefaultAutoInstNodeJS : String
  DefaultAutoInstPython : String
  DefaultAutoInstDotNet : String
  DefaultAutoInstGo : String
  DefaultAutoInstApacheHttpd : String
  deriving DecidableEq, Repr

/-- The three `manager.RunnableFunc` closures of `addDependencies`, each with what it
closes over. -/
inductive Runnable where
  /-- The closure returning `cfg.StartAutoDetect()`. -/
  | startAutoDetect (cfg : config.Config)
  /-- The closure returning `up.ManagedInstances(c)` for the collector upgrade. -/
  | collectorUpgrade (up : collectorupgrade.VersionUpgrade)
  /-- The closure returning `u.ManagedInstances(c)` for the instrumentation upgrade. -/
  | instrumentationUpgrade (u : instrumentationupgrade.InstrumentationUpgrade)
  deriving DecidableEq, Repr

/-- The values of `webhookhandler.PodMutator` that `main` builds. -/
inductive webhookhandler.PodMutator where
  /-- The value of `sidecar.NewMutator(logger, cfg, client)`. -/
  | sidecarMutator (cfg : config.Config)
  /-- The value of `instrumentation.NewMutator(logger, client, recorder)`. -/
  | instrumentationMutator
  deriving DecidableEq, Repr

/-- The value of `webhookhandler.NewWebhookHandler(cfg, log, decoder, client, mutators)`
inside `webhook.Admission`. -/
structure webhookhandler.WebhookHandler where
  cfg : config.Config
  podMutators : List webhookhandler.PodMutator
  deriving DecidableEq, Repr

/-- The controller manager, as far as `main` and `addDependencies` act on it. -/
structure Manager where
  options : ctrl.Options
  runnables : List Runnable
  controllers : List String
  resourceWebhooks : List (String × List (String × String))
  webhookServer : List (String × webhookhandler.WebhookHandler)
  healthzChecks : List String
  readyzChecks : List String
  started : Bool
  deriving DecidableEq, Repr

/-- The answers of the manager to `mgr.Add`: the error, if any, with which it turns down a
runnable when it already holds `n` of them. -/
abbrev AddVerdict := Nat → Option GoError

/-- The method `mgr.Add`: a runnable the manager accepts is appended to those it holds. -/
def Manager.Add (verdict : AddVerdict) (mgr : Manager) (r : Runnable) :
    Option GoError × Manager :=
  match verdict mgr.runnables.length with
  | some err => (some err, mgr)
  | none => (none, { mgr with runnables := mgr.runnables ++ [r] })

/-- The method `Register` of the webhook server of the manager. -/
def Manager.Register (mgr : Manager) (path : String)
    (hook : webhookhandler.WebhookHandler) : Manager :=
  { mgr with webhookServer := mgr.webhookServer ++ [(path, hook)] }

/-- A value logged as part of a key/value pair. -/
inductive LogValue where
  | str (s : String)
  | strs (l : Option (List String))
  deriving DecidableEq, Repr

/-- One call of `Info` or `Error` on a logger. -/
structure LogEntry where
  logger : String
  isError : Bool
  msg : String
  err : Option GoError
  keysAndValues : List (String × LogValue)
  deriving DecidableEq, Repr

/-- A call `setupLog.Error(err, msg, keysAndValues...)`. -/
def setupLog.Error (err : GoError) (msg : String) (kv : List (String × LogValue)) :
    LogEntry :=
  { logger := "setup", isError := true, msg := msg, err := some err, keysAndValues := kv }

/-- A call `setupLog.Info(msg, keysAndValues...)`. -/
def setupLog.Info (msg : String) (kv : List (String × LogValue)) : LogEntry :=
  { logger := "setup", isError := false, msg := msg, err := none, keysAndValues := kv }

/-- A call of `Info` on the root logger. -/
def logger.Info (msg : String) (kv : List (String × LogValue)) : LogEntry :=
  { logger := "", isError := false, msg := msg, err := none, keysAndValues := kv }

/-! ## `main.go` -/

/-- Everything outside the embedded sources that a run of `main` depends on. -/
structure World where
  /-- The value of `version.Get()`. -/
  version : version.Version
  /-- The configuration-file loader of controller-runtime. -/
  loadConfigFile : ConfigLoader
  /-- The value of the flag `config` on the command line, when it is given. -/
  configFlag : Option String
  /-- The result of `rootCmd.Execute()`. -/
  executeVerdict : Option GoError
  /-- The function `zapcore.ParseLevel`. -/
  parseLevel : String → Except GoError Int
  /-- The text of the feature-gates flag. -/
  featureGates : String
  /-- The value of `runtime.GOARCH`. -/
  goArch : String
  /-- The value of `runtime.GOOS`. -/
  goOS : String
  /-- Whether `ctrl.GetConfigOrDie()` finds a cluster configuration. -/
  kubeConfig : Bool
  /-- The error of `autodetect.New`. -/
  autodetectNew : Option GoError
  /-- The process environment. -/
  env : Environ
  /-- The error of `ctrl.NewManager`. -/
  newManager : Option GoError
  /-- The answers of the manager to `mgr.Add`. -/
  addRunnable : AddVerdict
  /-- The error of `SetupWithManager` on the collector reconciler. -/
  setupReconciler : Option GoError
  /-- The error of `SetupWebhookWithManager` on `OpenTelemetryCollector`. -/
  setupCollectorWebhook : Option GoError
  /-- The error of `SetupWebhookWithManager` on `Instrumentation`. -/
  setupInstrumentationWebhook : Option GoError
  /-- The error of `mgr.AddHealthzCheck`. -/
  addHealthzCheck : Option GoError
  /-- The error of `mgr.AddReadyzCheck`. -/
  addReadyzCheck : Option GoError
  /-- The error of `mgr.Start`, returned when the manager stops. -/
  start : Option GoError

/-- The end of a run of `main`: the exit code, the log, the local variable `namespaces`
and the manager, as they are when the process ends. -/
structure Outcome where
  exitCode : Nat
  logs : List LogEntry
  namespaces : GoMap cache.Config
  mgr : Option Manager
  deriving DecidableEq, Repr

/-- The function `addDependencies`: the error it returns and the manager it leaves. -/
def addDependencies (verdict : AddVerdict) (mgr : Manager) (cfg : config.Config)
    (v : version.Version) : Option GoError × Manager :=
  match mgr.Add verdict (.startAutoDetect cfg) with
  | (some err, mgr) => (some (.wrap "failed to start the auto-detect mechanism" err), mgr)
  | (none, mgr) =>
  match mgr.Add verdict (.collectorUpgrade { Version := v }) with
  | (some err, mgr) =>
    (some (.wrap "failed to upgrade OpenTelemetryCollector instances" err), mgr)
  | (none, mgr) =>
  match mgr.Add verdict (.instrumentationUpgrade
      { DefaultAutoInstJava := cfg.AutoInstrumentationJavaImage
        DefaultAutoInstNodeJS := cfg.AutoInstrumentationNodeJSImage
        DefaultAutoInstPython := cfg.AutoInstrumentationPythonImage
        DefaultAutoInstDotNet := cfg.AutoInstrumentationDotNetImage
        DefaultAutoInstGo := cfg.AutoInstrumentationDotNetImage
        DefaultAutoInstApacheHttpd := cfg.AutoInstrumentationApacheHttpdImage }) with
  | (some err, mgr) => (some (.wrap "failed to upgrade Instrumentation instances" err), mgr)
  | (none, mgr) => (none, mgr)

/-- The namespace map that `main` builds from the value of `WATCH_NAMESPACE`: the
declaration `var namespaces map[string]cache.Config` and the `if` after it. -/
def watchNamespaces (watchNamespace : String) : GoMap cache.Config :=
  if strings.Contains watchNamespace "," then
    some ((strings.Split watchNamespace ',').foldl
      (fun namespaces ns => MapTable.set namespaces ns {}) [])
  else none

/-- The call `config.New(...)` in `main`: every image and the label filter come from the
controller configuration, the version from `version.Get()`. -/
def main.newConfig (v : version.Version) (ctrlConfig : v1alpha1.ProjectConfig) :
    config.Config where
  version := v
  collectorImage := ctrlConfig.CollectorImage
  targetAllocatorImage := ctrlConfig.TargetAllocatorImage
  operatorOpAMPBridgeImage := ctrlConfig.OperatorOpAMPBridgeImage
  autoInstrumentationJavaImage := ctrlConfig.AutoInstrumentationJava
  autoInstrumentationNodeJSImage := ctrlConfig.AutoInstrumentationNodeJS
  autoInstrumentationPythonImage := ctrlConfig.AutoInstrumentationPython
  autoInstrumentationDotNetImage := ctrlConfig.AutoInstrumentationDotNet
  autoInstrumentationGoImage := ctrlConfig.AutoInstrumentationGo
  autoInstrumentationApacheHttpdImage := ctrlConfig.AutoInstrumentationApacheHttpd
  labelsFilter := ctrlConfig.LabelsFilter

/-- The manager that `ctrl.NewManager(ctrl.GetConfigOrDie(), mgrOptions)` returns when it
succeeds: nothing is registered with it and it is not started. -/
def main.newManager (mgrOptions : ctrl.Options) : Manager where
  options := mgrOptions
  runnables := []
  controllers := []
  resourceWebhooks := []
  webhookServer := []
  healthzChecks := []
  readyzChecks := []
  started := false

/-- The last part of `main`, from the health checks to the end: the two probes are
installed and the manager is started. -/
def main.startManager (w : World) (namespaces : GoMap cache.Config) (mgr : Manager)
    (logs : List LogEntry) : Outcome :=
  match w.addHealthzCheck with
  | some err =>
    { exitCode := 1, logs := logs ++ [setupLog.Error err "unable to set up health check" []],
      namespaces := namespaces, mgr := some mgr }
  | none =>
  let mgr := { mgr with healthzChecks := mgr.healthzChecks ++ ["healthz"] }
  match w.addReadyzCheck with
  | some err =>
    { exitCode := 1, logs := logs ++ [setupLog.Error err "unable to set up ready check" []],
      namespaces := namespaces, mgr := some mgr }
  | none =>
  let mgr := { mgr with readyzChecks := mgr.readyzChecks ++ ["readyz"] }
  let logs := logs ++ [setupLog.Info "starting manager" []]
  let mgr := { mgr with started := true }
  match w.start with
  | some err =>
    { exitCode := 1, logs := logs ++ [setupLog.Error err "problem running manager" []],
      namespaces := namespaces, mgr := some mgr }
  | none => { exitCode := 0, logs := logs, namespaces := namespaces, mgr := some mgr }

/-- The function `main`, up to the admission gate; it ends in `main.startManager`.  The
manager starts out holding the options read from the root command; the local variable
`namespaces` is kept in the outcome. -/
def main (w : World) : Outcome :=
  let rootCmd := cmd.NewRootCommand w.loadConfigFile w.version
  match rootCmd.Execute w.configFlag w.executeVerdict with
  | (some _, _) => { exitCode := 1, logs := [], namespaces := none, mgr := none }
  | (none, rootCmd) =>
  match rootCmd.ctx with
  | none => { exitCode := 2, logs := [], namespaces := none, mgr := none }
  | some rootCmdConfig =>
  let ctrlConfig := rootCmdConfig.CtrlConfig
  let mgrOptions := rootCmdConfig.Options
  let v := w.version
  match w.parseLevel ctrlConfig.LogLevel with
  | .error _ => { exitCode := 1, logs := [], namespaces := none, mgr := none }
  | .ok _ =>
  let logs := [logger.Info "Starting the OpenTelemetry Operator"
    [("opentelemetry-operator", .str v.Operator),
     ("opentelemetry-collector", .str ctrlConfig.CollectorImage),
     ("opentelemetry-targetallocator", .str ctrlConfig.TargetAllocatorImage),
     ("operator-opamp-bridge", .str ctrlConfig.OperatorOpAMPBridgeImage),
     ("auto-instrumentation-java", .str ctrlConfig.AutoInstrumentationJava),
     ("auto-instrumentation-nodejs", .str ctrlConfig.AutoInstrumentationNodeJS),
     ("auto-instrumentation-python", .str ctrlConfig.AutoInstrumentationPython),
     ("auto-instrumentation-dotnet", .str ctrlConfig.AutoInstrumentationDotNet),
     ("auto-instrumentation-go", .str ctrlConfig.AutoInstrumentationGo),
     ("auto-instrumentation-apache-httpd", .str ctrlConfig.AutoInstrumentationApacheHttpd),
     ("feature-gates", .str w.featureGates),
     ("build-date", .str v.BuildDate),
     ("go-version", .str v.Go),
     ("go-arch", .str w.goArch),
     ("go-os", .str w.goOS),
     ("labels-filter", .strs ctrlConfig.LabelsFilter)]]
  if ¬ w.kubeConfig then
    { exitCode := 1, logs := logs, namespaces := none, mgr := none }
  else
  match w.autodetectNew with
  | some err =>
    { exitCode := 1, logs := logs ++ [setupLog.Error err "failed to setup auto-detect routine" []],
      namespaces := none, mgr := none }
  | none =>
  let cfg := main.newConfig v ctrlConfig
  let (watchNamespace, found) := os.LookupEnv w.env "WATCH_NAMESPACE"
  let logs := logs ++
    [if found then setupLog.Info "watching namespace(s)" [("namespaces", .str watchNamespace)]
     else setupLog.Info "the env var WATCH_NAMESPACE isn't set, watching all namespaces" []]
  let namespaces := watchNamespaces watchNamespace
  if ¬ w.kubeConfig then
    { exitCode := 1, logs := logs, namespaces := namespaces, mgr := none }
  else
  match w.newManager with
  | some err =>
    { exitCode := 1, logs := logs ++ [setupLog.Error err "unable to start manager" []],
      namespaces := namespaces, mgr := none }
  | none =>
  let mgr := main.newManager mgrOptions
  match addDependencies w.addRunnable mgr cfg v with
  | (some err, mgr) =>
    { exitCode := 1,
      logs := logs ++ [setupLog.Error err
        "failed to add/run bootstrap dependencies to the controller manager" []],
      namespaces := namespaces, mgr := some mgr }
  | (none, mgr) =>
  match w.setupReconciler with
  | some err =>
    { exitCode := 1,
      logs := logs ++ [setupLog.Error err "unable to create controller"
        [("controller", .str "OpenTelemetryCollector")]],
      namespaces := namespaces, mgr := some mgr }
  | none =>
  let mgr := { mgr with controllers := mgr.controllers ++ ["OpenTelemetryCollector"] }
  if os.Getenv w.env "ENABLE_WEBHOOKS" ≠ "false" then
    match w.setupCollectorWebhook with
    | some err =>
      { exitCode := 1,
        logs := logs ++ [setupLog.Error err "unable to create webhook"
          [("webhook", .str "OpenTelemetryCollector")]],
        namespaces := namespaces, mgr := some mgr }
    | none =>
    let mgr := { mgr with
      resourceWebhooks := mgr.resourceWebhooks ++ [("OpenTelemetryCollector", [])] }
    match w.setupInstrumentationWebhook with
    | some err =>
      { exitCode := 1,
        logs := logs ++ [setupLog.Error err "unable to create webhook"
          [("webhook", .str "Instrumentation")]],
        namespaces := namespaces, mgr := some mgr }
    | none =>
    let mgr := { mgr with
      resourceWebhooks := mgr.resourceWebhooks ++ [("Instrumentation",
        [("AnnotationDefaultAutoInstrumentationJava", ctrlConfig.AutoInstrumentationJava),
         ("AnnotationDefaultAutoInstrumentationNodeJS", ctrlConfig.AutoInstrumentationNodeJS),
         ("AnnotationDefaultAutoInstrumentationPython", ctrlConfig.AutoInstrumentationPython),
         ("AnnotationDefaultAutoInstrumentationDotNet", ctrlConfig.AutoInstrumentationDotNet),
         ("AnnotationDefaultAutoInstrumentationGo", ctrlConfig.AutoInstrumentationGo),
         ("AnnotationDefaultAutoInstrumentationApacheHttpd",
           ctrlConfig.AutoInstrumentationApacheHttpd)])] }
    main.startManager w namespaces
      (mgr.Register "/mutate-v1-pod"
        { cfg := cfg, podMutators := [.sidecarMutator cfg, .instrumentationMutator] })
      logs
  else
    main.startManager w namespaces mgr
      (logs ++ [logger.Info "Webhooks are disabled, operator is running an unsupported mode"
        [("ENABLE_WEBHOOKS", .str "false")]])

/-! ## Observations on a run -/

/-- The three runnables that `addDependencies` hands to `mgr.Add`, in the order of the
calls. -/
def startupTasks (cfg : config.Config) (v : version.Version) : List Runnable :=
  [.startAutoDetect cfg,
   .collectorUpgrade { Version := v },
   .instrumentationUpgrade
      { DefaultAutoInstJava := cfg.AutoInstrumentationJavaImage
        DefaultAutoInstNodeJS := cfg.AutoInstrumentationNodeJSImage
        DefaultAutoInstPython := cfg.AutoInstrumentationPythonImage
        DefaultAutoInstDotNet := cfg.AutoInstrumentationDotNetImage
        DefaultAutoInstGo := cfg.AutoInstrumentationDotNetImage
        DefaultAutoInstApacheHttpd := cfg.AutoInstrumentationApacheHttpdImage }]

/-- The messages of the three `fmt.Errorf` calls of `addDependencies`, in the order of the
calls. -/
def startupTaskErrors : List String :=
  ["failed to start the auto-detect mechanism",
   "failed to upgrade OpenTelemetryCollector instances",
   "failed to upgrade Instrumentation instances"]

/-- The runnables held by the manager at the end of a run (none without a manager). -/
def Outcome.runnables (o : Outcome) : List Runnable :=
  match o.mgr with
  | some mgr => mgr.runnables
  | none => []

/-- Whether `mgr.Start` was called in a run. -/
def Outcome.started (o : Outcome) : Bool :=
  match o.mgr with
  | some mgr => mgr.started
  | none => false

/-- The handlers registered on the webhook server at the end of a run, with their paths. -/
def Outcome.webhookServer (o : Outcome) : List (String × webhookhandler.WebhookHandler) :=
  match o.mgr with
  | some mgr => mgr.webhookServer
  | none => []

/-- The resource kinds whose webhooks were set up in a run, with the annotations of the
object on which `SetupWebhookWithManager` was called. -/
def Outcome.resourceWebhooks (o : Outcome) : List (String × List (String × String)) :=
  match o.mgr with
  | some mgr => mgr.resourceWebhooks
  | none => []

/-! ## Conditions on the collaborators and sample runs -/

/-- The collaborators let a run of `main` get as far as reading `WATCH_NAMESPACE`: the
root command executes, the log level (the empty default) parses, a cluster configuration
is found and the auto-detection routine is set up. -/
structure World.ReachesWatchScope (w : World) : Prop where
  execute : w.executeVerdict = none
  level : (w.parseLevel "").isOk = true
  kubeConfig : w.kubeConfig = true
  autodetect : w.autodetectNew = none

/-- The collaborators let a run of `main` get as far as `addDependencies`: the run reaches
the watch scope and the manager is built. -/
structure World.ReachesDependencies (w : World) extends w.ReachesWatchScope : Prop where
  manager : w.newManager = none

/-- The collaborators let a run of `main` get as far as the test of `ENABLE_WEBHOOKS`: the
run reaches `addDependencies`, the manager accepts the three runnables and the reconciler
is set up. -/
structure World.ReachesAdmissionGate (w : World) extends w.ReachesDependencies : Prop where
  accepted : ∀ i, i < 3 → w.addRunnable i = none
  reconciler : w.setupReconciler = none

/-- A version record for sample runs. -/
def sampleVersion : version.Version where
  Operator := "0.90.0"
  BuildDate := "2023-12-01"
  Go := "go1.21.4"
  OpenTelemetryCollector := "0.90.1"
  TargetAllocator := "0.90.0"
  OperatorOpAMPBridge := "0.90.0"
  AutoInstrumentationJava := "1.32.0"
  AutoInstrumentationNodeJS := "0.44.0"
  AutoInstrumentationPython := "0.41b0"
  AutoInstrumentationDotNet := "1.2.0"
  AutoInstrumentationGo := "v0.8.0-alpha"
  AutoInstrumentationApacheHttpd := "1.0.3"

/-- A world for sample runs in which every collaborator succeeds: the environment, the
`config` flag, the file loader and the answers of the manager to `mgr.Add` are given. -/
def sampleWorld (env : Environ) (configFlag : Option String) (load : ConfigLoader)
    (add : AddVerdict) : World where
  version := sampleVersion
  loadConfigFile := load
  configFlag := configFlag
  executeVerdict := none
  parseLevel := fun text =>
    if text = "" ∨ text = "info" then .ok 0
    else if text = "debug" then .ok (-1)
    else .error (.new "unrecognized level")
  featureGates := ""
  goArch := "amd64"
  goOS := "linux"
  kubeConfig := true
  autodetectNew := none
  env := env
  newManager := none
  addRunnable := add
  setupReconciler := none
  setupCollectorWebhook := none
  setupInstrumentationWebhook := none
  addHealthzCheck := none
  addReadyzCheck := none
  start := none

/-- A loader for sample runs that finds no configuration file. -/
def noFileLoader : ConfigLoader :=
  fun _ _ _ => .error (.new "no such file or directory")

/-- An environment in which only `WATCH_NAMESPACE` is set. -/
def watchEnv (value : String) : Environ :=
  fun key => if key = "WATCH_NAMESPACE" then some value else none

/-- A sample run with `WATCH_NAMESPACE` set to `value` and no `config` flag. -/
def watchWorld (value : String) : World :=
  sampleWorld (watchEnv value) none noFileLoader (fun _ => none)

/-- The operator configuration of sample runs: built from the defaults. -/
def sampleConfig : config.Config :=
  main.newConfig sampleVersion (cmd.defaultCtrlConfig sampleVersion)

/-- A manager that turns down the runnable offered when it holds `k` of them, with the
error `e`, and accepts every other one. -/
def rejectAt (k : Nat) (e : GoError) : AddVerdict :=
  fun n => if n = k then some e else none

/-- A sample run in which the manager turns down the `k`-th runnable, counted from 0. -/
def rejectWorld (k : Nat) (e : GoError) : World :=
  sampleWorld (fun _ => none) none noFileLoader (rejectAt k e)

/-- An environment in which only `ENABLE_WEBHOOKS` may be set. -/
def gateEnv (value : Option String) : Environ :=
  fun key => if key = "ENABLE_WEBHOOKS" then value else none

/-- A sample run with `ENABLE_WEBHOOKS` unset or set to a value, in which every
collaborator succeeds. -/
def gateWorld (value : Option String) : World :=
  sampleWorld (gateEnv value) none noFileLoader (fun _ => none)

/-- A root command before `readConfig` runs on it. -/
def sampleCommand : cobra.Command where
  Use := "opentelemetry-operator"
  SilenceUsage := true
  ctx := none
  configFile := ""

/-- A loader for sample runs: the file `/etc/otel/config.yaml` exists and sets the metrics
address to `:9090` and the collector image to `example.com/collector:1.0`; no other file
exists. -/
def overrideLoader : ConfigLoader :=
  fun options path ctrlConfig =>
    if path = "/etc/otel/config.yaml" then
      .ok (options, { ctrlConfig with
        MetricsAddr := ":9090", CollectorImage := "example.com/collector:1.0" })
    else .error (.new "no such file or directory")

/-- A sample run started with `--config /etc/otel/config.yaml` where that file is the one
of `overrideLoader`. -/
def overrideWorld : World :=
  sampleWorld (fun _ => none) (some "/etc/otel/config.yaml") overrideLoader (fun _ => none)

/-- A loader for sample runs: the file `/etc/otel/config.yaml` exists and sets the
collector image to the empty string. -/
def emptyImageLoader : ConfigLoader :=
  fun options path ctrlConfig =>
    if path = "/etc/otel/config.yaml" then .ok (options, { ctrlConfig with CollectorImage := "" })
    else .error (.new "no such file or directory")

/-! ## Lemmas on strings and maps -/

theorem strings.contains_comma_iff (s : String) :
    strings.Contains s "," = true ↔ ',' ∈ s.data := by
  have hdata : ("," : String).data = [','] := rfl
  simp only [strings.Contains, decide_eq_true_eq, hdata]
  constructor
  · rintro ⟨l, r, h⟩
    rw [← h]
    simp
  · intro h
    obtain ⟨l, r, h⟩ := List.append_of_mem h
    exact ⟨l, r, by simp [h]⟩

theorem MapTable.mem_keys_set {V : Type} (m : MapTable V) (k : String) (v : V) (k' : String) :
    k' ∈ (MapTable.set m k v).keys ↔ k' ∈ m.keys ∨ k' = k := by
  induction m with
  | nil => simp [MapTable.set, MapTable.keys]
  | cons p rest ih =>
    obtain ⟨a, b⟩ := p
    simp only [MapTable.keys] at ih ⊢
    by_cases h : a = k
    · subst h
      simp [MapTable.set]
      tauto
    · simp [MapTable.set, h, ih]
      tauto

theorem MapTable.nodup_keys_set {V : Type} (m : MapTable V) (k : String) (v : V)
    (h : m.keys.Nodup) : (MapTable.set m k v).keys.Nodup := by
  induction m with
  | nil => simp [MapTable.set, MapTable.keys]
  | cons p rest ih =>
    obtain ⟨a, b⟩ := p
    have hm := MapTable.mem_keys_set rest k v a
    simp only [MapTable.keys, List.map_cons, List.nodup_cons] at ih h hm ⊢
    by_cases hk : a = k
    · subst hk
      simpa [MapTable.set] using h
    · simp only [MapTable.set, hk, if_false, List.map_cons, List.nodup_cons]
      refine ⟨?_, ih h.2⟩
      rw [hm]
      rintro (h1 | h1)
      · exact h.1 h1
      · exact hk h1

theorem MapTable.keys_foldl_set {V : Type} (v : V) (l : List String) (m : MapTable V) :
    (m.keys.Nodup → (l.foldl (fun acc ns => MapTable.set acc ns v) m).keys.Nodup) ∧
      ∀ k, k ∈ (l.foldl (fun acc ns => MapTable.set acc ns v) m).keys ↔ k ∈ m.keys ∨ k ∈ l := by
  induction l generalizing m with
  | nil => simp
  | cons a rest ih =>
    obtain ⟨hnd, hmem⟩ := ih (MapTable.set m a v)
    refine ⟨fun h => hnd (MapTable.nodup_keys_set m a v h), fun k => ?_⟩
    simp only [List.foldl_cons, hmem, MapTable.mem_keys_set, List.mem_cons]
    tauto

theorem strings.splitChars_ne_nil (sep : Char) (l : List Char) :
    strings.splitChars sep l ≠ [] := by
  cases l with
  | nil => simp [strings.splitChars]
  | cons c cs =>
    simp only [strings.splitChars]
    split
    · simp
    · split <;> simp

/-- Joining the pieces of a split with the separator gives the text back. -/
theorem strings.splitChars_intercalate (sep : Char) (l : List Char) :
    List.intercalate [sep] (strings.splitChars sep l) = l := by
  induction l with
  | nil => simp [strings.splitChars, List.intercalate]
  | cons c cs ih =>
    have hne := strings.splitChars_ne_nil sep cs
    cases hs : strings.splitChars sep cs with
    | nil => exact absurd hs hne
    | cons piece pieces =>
      rw [hs] at ih
      by_cases hc : c = sep
      · subst hc
        simp only [strings.splitChars, if_true, hs]
        simp only [List.intercalate, List.intersperse, List.flatten] at ih ⊢
        simp [ih]
      · simp only [strings.splitChars, hc, if_false, hs]
        cases pieces with
        | nil => simpa [List.intercalate] using ih
        | cons q qs =>
          simp only [List.intercalate, List.intersperse, List.flatten, List.cons_append] at ih ⊢
          rw [ih]

/-- No piece of a split holds the separator. -/
theorem strings.splitChars_no_sep (sep : Char) (l : List Char) :
    ∀ piece ∈ strings.splitChars sep l, sep ∉ piece := by
  induction l with
  | nil => simp [strings.splitChars]
  | cons c cs ih =>
    by_cases hc : c = sep
    · subst hc
      simpa [strings.splitChars] using ih
    · cases hs : strings.splitChars sep cs with
      | nil => exact absurd hs (strings.splitChars_ne_nil sep cs)
      | cons q qs =>
        rw [hs] at ih
        simp only [strings.splitChars, hc, if_false, hs, List.mem_cons, forall_eq_or_imp] at ih ⊢
        refine ⟨?_, ih.2⟩
        intro h
        rcases h with h | h
        · exact hc h.symm
        · exact ih.1 h

/-! ## Lemmas on `readConfig` and `main` -/

theorem cmd.NewRootCommand_ctx (load : ConfigLoader) (v : version.Version) :
    (cmd.NewRootCommand load v).ctx =
      some { Options := { Scheme := cmd.scheme, Metrics := { BindAddress := ":8080" } },
             CtrlConfig := cmd.defaultCtrlConfig v } := by
  simp [cmd.NewRootCommand, cmd.readConfig, v1alpha1.ProjectConfig.Validate,
    cmd.defaultCtrlConfig]

theorem main.startManager_namespaces (w : World) (ns : GoMap cache.Config) (mgr : Manager)
    (logs : List LogEntry) : (main.startManager w ns mgr logs).namespaces = ns := by
  unfold main.startManager
  repeat' split
  all_goals rfl

theorem main_namespaces (w : World) (h : w.ReachesWatchScope) :
    (main w).namespaces = watchNamespaces (os.LookupEnv w.env "WATCH_NAMESPACE").1 := by
  obtain ⟨h1, h2, h3, h4⟩ := h
  cases hl : w.parseLevel "" with
  | error e => simp [hl, Except.isOk, Except.toBool] at h2
  | ok lvl =>
    have hlog : (cmd.defaultCtrlConfig w.version).LogLevel = "" := rfl
    simp only [main, cobra.Command.Execute, h1, cmd.NewRootCommand_ctx, hlog, hl, h3, h4]
    simp only [not_true_eq_false, if_false]
    repeat' split
    all_goals first | rfl | exact main.startManager_namespaces _ _ _ _

theorem watchWorld_reaches (value : String) : (watchWorld value).ReachesWatchScope :=
  ⟨rfl, rfl, rfl, rfl⟩

theorem main.newManager_runnables (o : ctrl.Options) : (main.newManager o).runnables = [] :=
  rfl

theorem addDependencies_accepted (verdict : AddVerdict) (mgr : Manager) (cfg : config.Config)
    (v : version.Version) (h : ∀ i, i < 3 → verdict (mgr.runnables.length + i) = none) :
    addDependencies verdict mgr cfg v =
      (none, { mgr with runnables := mgr.runnables ++ startupTasks cfg v }) := by
  have h0 := h 0 (by omega)
  have h1 := h 1 (by omega)
  have h2 := h 2 (by omega)
  simp only [Nat.add_zero] at h0
  simp [addDependencies, Manager.Add, h0, h1, h2, startupTasks, Nat.add_assoc]

theorem addDependencies_rejected_at (verdict : AddVerdict) (mgr : Manager)
    (cfg : config.Config) (v : version.Version) (k : Nat) (msg : String) (e : GoError)
    (hmsg : startupTaskErrors[k]? = some msg)
    (hacc : ∀ i, i < k → verdict (mgr.runnables.length + i) = none)
    (hrej : verdict (mgr.runnables.length + k) = some e) :
    addDependencies verdict mgr cfg v =
      (some (.wrap msg e),
        { mgr with runnables := mgr.runnables ++ (startupTasks cfg v).take k }) := by
  match k, hmsg, hacc, hrej with
  | 0, hmsg, _, hrej =>
    simp only [Nat.add_zero] at hrej
    simp only [startupTaskErrors, List.getElem?_cons_zero, Option.some.injEq] at hmsg
    subst hmsg
    simp [addDependencies, Manager.Add, hrej]
  | 1, hmsg, hacc, hrej =>
    have h0 := hacc 0 (by omega)
    simp only [Nat.add_zero] at h0
    simp only [startupTaskErrors, List.getElem?_cons_succ, List.getElem?_cons_zero,
      Option.some.injEq] at hmsg
    subst hmsg
    simp [addDependencies, Manager.Add, hrej, h0, startupTasks]
  | 2, hmsg, hacc, hrej =>
    have h0 := hacc 0 (by omega)
    have h1 := hacc 1 (by omega)
    simp only [Nat.add_zero] at h0
    simp only [startupTaskErrors, List.getElem?_cons_succ, List.getElem?_cons_zero,
      Option.some.injEq] at hmsg
    subst hmsg
    simp [addDependencies, Manager.Add, hrej, h0, h1, startupTasks, Nat.add_assoc]
  | n + 3, hmsg, _, _ =>
    simp [startupTaskErrors] at hmsg

theorem addDependencies_take (verdict : AddVerdict) (mgr : Manager) (cfg : config.Config)
    (v : version.Version) :
    ∃ k err, addDependencies verdict mgr cfg v =
      (err, { mgr with runnables := mgr.runnables ++ (startupTasks cfg v).take k }) := by
  cases h0 : verdict (mgr.runnables.length) with
  | some e => exact ⟨0, _, by simp [addDependencies, Manager.Add, h0]; rfl⟩
  | none =>
    cases h1 : verdict (mgr.runnables.length + 1) with
    | some e => exact ⟨1, _, by simp [addDependencies, Manager.Add, h0, h1, startupTasks]; rfl⟩
    | none =>
      cases h2 : verdict (mgr.runnables.length + 2) with
      | some e =>
        exact ⟨2, _, by
          simp [addDependencies, Manager.Add, h0, h1, h2, startupTasks, Nat.add_assoc]; rfl⟩
      | none =>
        exact ⟨3, _, by
          simp [addDependencies, Manager.Add, h0, h1, h2, startupTasks, Nat.add_assoc]; rfl⟩

theorem main.startManager_mgr (w : World) (ns : GoMap cache.Config) (mgr : Manager)
    (logs : List LogEntry) :
    ∃ m, (main.startManager w ns mgr logs).mgr = some m ∧
      m.webhookServer = mgr.webhookServer ∧ m.resourceWebhooks = mgr.resourceWebhooks ∧
      m.runnables = mgr.runnables := by
  unfold main.startManager
  repeat' split
  all_goals exact ⟨_, rfl, rfl, rfl, rfl⟩

theorem main.startManager_webhookServer (w : World) (ns : GoMap cache.Config) (mgr : Manager)
    (logs : List LogEntry) :
    (main.startManager w ns mgr logs).webhookServer = mgr.webhookServer := by
  obtain ⟨m, hm, h, -⟩ := main.startManager_mgr w ns mgr logs
  simp [Outcome.webhookServer, hm, h]

theorem main.startManager_resourceWebhooks (w : World) (ns : GoMap cache.Config)
    (mgr : Manager) (logs : List LogEntry) :
    (main.startManager w ns mgr logs).resourceWebhooks = mgr.resourceWebhooks := by
  obtain ⟨m, hm, -, h, -⟩ := main.startManager_mgr w ns mgr logs
  simp [Outcome.resourceWebhooks, hm, h]

theorem main_webhookServer_of_reaches (w : World) (h : w.ReachesAdmissionGate) :
    (main w).webhookServer =
      if os.Getenv w.env "ENABLE_WEBHOOKS" ≠ "false" then
        match w.setupCollectorWebhook, w.setupInstrumentationWebhook with
        | none, none =>
          [("/mutate-v1-pod",
            { cfg := main.newConfig w.version (cmd.defaultCtrlConfig w.version),
              podMutators :=
                [.sidecarMutator (main.newConfig w.version (cmd.defaultCtrlConfig w.version)),
                 .instrumentationMutator] })]
        | _, _ => []
      else [] := by
  obtain ⟨⟨⟨h1, h2, h3, h4⟩, h5⟩, h6, h7⟩ := h
  cases hl : w.parseLevel "" with
  | error e => simp [hl, Except.isOk, Except.toBool] at h2
  | ok lvl =>
    have hlog : (cmd.defaultCtrlConfig w.version).LogLevel = "" := rfl
    have hadd := fun o cfg v => addDependencies_accepted w.addRunnable (main.newManager o) cfg v
      (by simpa [main.newManager] using h6)
    simp only [main, cobra.Command.Execute, h1, cmd.NewRootCommand_ctx, hlog, hl, h3, h4, h5, h7,
      hadd]
    simp only [not_true_eq_false, if_false]
    split
    · cases hc : w.setupCollectorWebhook with
      | some e => simp [Outcome.webhookServer, main.newManager]
      | none =>
        cases hi : w.setupInstrumentationWebhook with
        | some e => simp [Outcome.webhookServer, main.newManager]
        | none =>
          simp [main.startManager_webhookServer, Manager.Register, main.newManager]
    · simp [main.startManager_webhookServer, main.newManager]

theorem main_webhookServer_cases (w : World) :
    (main w).webhookServer = [] ∨
    (os.Getenv w.env "ENABLE_WEBHOOKS" ≠ "false" ∧
      (main w).webhookServer =
        [("/mutate-v1-pod",
            { cfg := main.newConfig w.version (cmd.defaultCtrlConfig w.version),
              podMutators :=
                [.sidecarMutator (main.newConfig w.version (cmd.defaultCtrlConfig w.version)),
                 .instrumentationMutator] })]) := by
  have hlog : (cmd.defaultCtrlConfig w.version).LogLevel = "" := rfl
  cases hv : w.executeVerdict with
  | some err => left; simp [main, cobra.Command.Execute, hv, Outcome.webhookServer]
  | none =>
    cases hl : w.parseLevel "" with
    | error err =>
      left
      simp [main, cobra.Command.Execute, hv, cmd.NewRootCommand_ctx, hlog, hl,
        Outcome.webhookServer]
    | ok lvl =>
      obtain ⟨k, res, hk⟩ := addDependencies_take w.addRunnable
        (main.newManager ⟨cmd.scheme, ⟨":8080"⟩⟩)
        (main.newConfig w.version (cmd.defaultCtrlConfig w.version)) w.version
      simp only [main, cobra.Command.Execute, hv, cmd.NewRootCommand_ctx, hlog, hl]
      rw [hk]
      cases res with
      | some err =>
        left
        simp only []
        repeat' split
        all_goals rfl
      | none =>
        simp only []
        repeat' split
        all_goals first
          | (left; rfl)
          | (left; simp [main.startManager_webhookServer, main.newManager]; done)
          | (right; refine ⟨by assumption, ?_⟩;
             simp [main.startManager_webhookServer, main.newManager, Manager.Register])

theorem main_resourceWebhooks_disabled (w : World)
    (h : os.Getenv w.env "ENABLE_WEBHOOKS" = "false") : (main w).resourceWebhooks = [] := by
  have hlog : (cmd.defaultCtrlConfig w.version).LogLevel = "" := rfl
  cases hv : w.executeVerdict with
  | some err => simp [main, cobra.Command.Execute, hv, Outcome.resourceWebhooks]
  | none =>
    cases hl : w.parseLevel "" with
    | error err =>
      simp [main, cobra.Command.Execute, hv, cmd.NewRootCommand_ctx, hlog, hl,
        Outcome.resourceWebhooks]
    | ok lvl =>
      obtain ⟨k, res, hk⟩ := addDependencies_take w.addRunnable
        (main.newManager ⟨cmd.scheme, ⟨":8080"⟩⟩)
        (main.newConfig w.version (cmd.defaultCtrlConfig w.version)) w.version
      simp only [main, cobra.Command.Execute, hv, cmd.NewRootCommand_ctx, hlog, hl, h]
      rw [hk]
      simp only [ne_eq, not_true_eq_false, if_false]
      cases res with
      | some err =>
        simp only []
        repeat' split
        all_goals rfl
      | none =>
        simp only []
        repeat' split
        all_goals first
          | rfl
          | simp [main.startManager_resourceWebhooks, main.newManager]

theorem gateWorld_reaches (value : Option String) : (gateWorld value).ReachesAdmissionGate :=
  ⟨⟨⟨rfl, rfl, rfl, rfl⟩, rfl⟩, fun _ _ => rfl, rfl⟩

/-! ## Watch scope -/

/-- C4: when `WATCH_NAMESPACE` holds a value with at least one comma, the namespace map of
`main` is allocated, has one entry per key, and its keys are exactly the pieces of the
value split at the commas. -/
theorem main_namespaces_comma_list (w : World) (h : w.ReachesWatchScope) (value : String)
    (henv : w.env "WATCH_NAMESPACE" = some value) (hcomma : ',' ∈ value.data) :
    ∃ m : MapTable cache.Config, (main w).namespaces = some m ∧ m.keys.Nodup ∧
      ∀ ns, ns ∈ m.keys ↔ ns ∈ strings.Split value ',' := by
  have hc := (strings.contains_comma_iff value).2 hcomma
  have hk := MapTable.keys_foldl_set ({} : cache.Config) (strings.Split value ',') []
  refine ⟨_, ?_, hk.1 (by simp [MapTable.keys]), fun ns => ?_⟩
  · rw [main_namespaces w h]
    simp only [os.LookupEnv, henv, watchNamespaces, hc, if_true]
  · rw [hk.2 ns]
    simp [MapTable.keys]

/-- C4, at the value `a,b,b,c`: the keys are `a`, `b` and `c`. -/
theorem main_namespaces_comma_list_witness :
    (main (watchWorld "a,b,b,c")).namespaces.map MapTable.keys = some ["a", "b", "c"] ∧
    ∃ m : MapTable cache.Config, (main (watchWorld "a,b,b,c")).namespaces = some m ∧
      m.keys.Nodup ∧ ∀ ns, ns ∈ m.keys ↔ ns ∈ strings.Split "a,b,b,c" ',' :=
  ⟨by decide,
   main_namespaces_comma_list (watchWorld "a,b,b,c") (watchWorld_reaches _) "a,b,b,c" rfl
     (by decide)⟩

/-- C5: when `WATCH_NAMESPACE` is unset or empty, the namespace map of `main` is the nil
map, not an allocated map without entries. -/
theorem main_namespaces_unset_or_empty (w : World) (h : w.ReachesWatchScope)
    (henv : w.env "WATCH_NAMESPACE" = none ∨ w.env "WATCH_NAMESPACE" = some "") :
    (main w).namespaces = none ∧ (main w).namespaces ≠ some [] := by
  have hn : (main w).namespaces = none := by
    rw [main_namespaces w h]
    rcases henv with henv | henv <;>
      simp only [os.LookupEnv, henv] <;> rfl
  simp [hn]

/-- C5, at the empty value. -/
theorem main_namespaces_unset_or_empty_witness :
    (main (watchWorld "")).namespaces = none ∧ (main (watchWorld "")).namespaces ≠ some [] :=
  main_namespaces_unset_or_empty (watchWorld "") (watchWorld_reaches _) (Or.inr rfl)

/-- C6: with `WATCH_NAMESPACE` set to `a`, `main` logs that it watches the namespace `a`
and leaves the namespace map nil, which restricts nothing. -/
theorem main_namespaces_single_value :
    (main (watchWorld "a")).namespaces = none ∧
    setupLog.Info "watching namespace(s)" [("namespaces", .str "a")] ∈
      (main (watchWorld "a")).logs := by
  decide

/-! ## Startup tasks -/

/-- C7: `addDependencies` hands the manager the auto-detection task, the collector upgrade
and the instrumentation upgrade, in this order; when the manager accepts all three they
are exactly what is added to its runnables and no error is returned; in every run what is
added is an initial part of that list of three. -/
theorem addDependencies_registration_order (verdict : AddVerdict) (mgr : Manager)
    (cfg : config.Config) (v : version.Version) :
    (∃ up u, startupTasks cfg v =
      [.startAutoDetect cfg, .collectorUpgrade up, .instrumentationUpgrade u]) ∧
    ((∀ i, i < 3 → verdict (mgr.runnables.length + i) = none) →
      addDependencies verdict mgr cfg v =
        (none, { mgr with runnables := mgr.runnables ++ startupTasks cfg v })) ∧
    ∃ registered, registered <+: startupTasks cfg v ∧
      (addDependencies verdict mgr cfg v).2 =
        { mgr with runnables := mgr.runnables ++ registered } := by
  refine ⟨⟨_, _, rfl⟩, addDependencies_accepted verdict mgr cfg v, ?_⟩
  obtain ⟨k, err, hk⟩ := addDependencies_take verdict mgr cfg v
  exact ⟨_, List.take_prefix k _, by rw [hk]⟩

/-- C7, on a fresh manager that accepts everything. -/
theorem addDependencies_registration_order_witness :
    addDependencies (fun _ => none) (main.newManager ⟨cmd.scheme, ⟨":8080"⟩⟩) sampleConfig
        sampleVersion =
      (none, { main.newManager ⟨cmd.scheme, ⟨":8080"⟩⟩ with
        runnables := [] ++ startupTasks sampleConfig sampleVersion }) :=
  (addDependencies_registration_order (fun _ => none)
    (main.newManager ⟨cmd.scheme, ⟨":8080"⟩⟩) sampleConfig sampleVersion).2.1 (fun _ _ => rfl)

/-- C8: when the manager accepts the first `k` runnables and turns down the next one with
the error `e`, `addDependencies` returns `e` wrapped in the message of that task, the
three messages being distinct, and leaves only the first `k` tasks with the manager;
`main` then exits with code 1 and never calls `mgr.Start`. -/
theorem main_startup_task_rejected (w : World) (k : Nat) (msg : String) (e : GoError)
    (hmsg : startupTaskErrors[k]? = some msg)
    (hacc : ∀ i, i < k → w.addRunnable i = none)
    (hrej : w.addRunnable k = some e) :
    (∀ mgr cfg v, mgr.runnables = [] →
      addDependencies w.addRunnable mgr cfg v =
        (some (.wrap msg e), { mgr with runnables := (startupTasks cfg v).take k })) ∧
    (GoError.wrap msg e).Unwrap = some e ∧
    (GoError.wrap msg e).Error = msg ++ ": " ++ e.Error ∧
    startupTaskErrors.Nodup ∧
    (main w).exitCode = 1 ∧ (main w).started = false ∧
    (w.ReachesDependencies →
      (main w).logs.getLast? = some (setupLog.Error (.wrap msg e)
        "failed to add/run bootstrap dependencies to the controller manager" []) ∧
      (main w).runnables =
        (startupTasks (main.newConfig w.version (cmd.defaultCtrlConfig w.version))
          w.version).take k) := by
  have hadd : ∀ mgr cfg v, mgr.runnables = [] →
      addDependencies w.addRunnable mgr cfg v =
        (some (.wrap msg e), { mgr with runnables := (startupTasks cfg v).take k }) := by
    intro mgr cfg v hm
    have := addDependencies_rejected_at w.addRunnable mgr cfg v k msg e hmsg
      (by simpa [hm] using hacc) (by simpa [hm] using hrej)
    simpa [hm] using this
  have hadd' : ∀ o cfg v, addDependencies w.addRunnable (main.newManager o) cfg v =
      (some (.wrap msg e),
        { main.newManager o with runnables := (startupTasks cfg v).take k }) :=
    fun o cfg v => hadd _ cfg v rfl
  have hlog : (cmd.defaultCtrlConfig w.version).LogLevel = "" := rfl
  refine ⟨hadd, rfl, rfl, by decide, ?_, ?_, ?_⟩
  · cases hv : w.executeVerdict with
    | some err => simp [main, cobra.Command.Execute, hv]
    | none =>
      cases hl : w.parseLevel "" with
      | error err => simp [main, cobra.Command.Execute, hv, cmd.NewRootCommand_ctx, hlog, hl]
      | ok lvl =>
        simp only [main, cobra.Command.Execute, hv, cmd.NewRootCommand_ctx, hlog, hl, hadd']
        repeat' split
        all_goals rfl
  · cases hv : w.executeVerdict with
    | some err => simp [main, cobra.Command.Execute, hv, Outcome.started]
    | none =>
      cases hl : w.parseLevel "" with
      | error err =>
        simp [main, cobra.Command.Execute, hv, cmd.NewRootCommand_ctx, hlog, hl,
          Outcome.started]
      | ok lvl =>
        simp only [main, cobra.Command.Execute, hv, cmd.NewRootCommand_ctx, hlog, hl, hadd']
        repeat' split
        all_goals rfl
  · rintro ⟨⟨h1, h2, h3, h4⟩, h5⟩
    cases hl : w.parseLevel "" with
    | error e => simp [hl, Except.isOk, Except.toBool] at h2
    | ok lvl =>
      simp only [main, cobra.Command.Execute, h1, cmd.NewRootCommand_ctx, hlog, hl, h3, h4, h5,
        hadd']
      simp [Outcome.runnables, main.newManager]

/-- C8, for a manager that accepts the auto-detection task and turns down the collector
upgrade. -/
theorem main_startup_task_rejected_witness :
    rejectAt 1 (.new "manager stopped") 1 = some (.new "manager stopped") ∧
    (main (rejectWorld 1 (.new "manager stopped"))).exitCode = 1 ∧
    (main (rejectWorld 1 (.new "manager stopped"))).started = false ∧
    (main (rejectWorld 1 (.new "manager stopped"))).logs.getLast? =
      some (setupLog.Error
        (.wrap "failed to upgrade OpenTelemetryCollector instances" (.new "manager stopped"))
        "failed to add/run bootstrap dependencies to the controller manager" []) ∧
    (main (rejectWorld 1 (.new "manager stopped"))).runnables =
      [.startAutoDetect sampleConfig] :=
  have h := main_startup_task_rejected (rejectWorld 1 (.new "manager stopped")) 1
    "failed to upgrade OpenTelemetryCollector instances" (.new "manager stopped") rfl
    (fun i hi => by
      have hi0 : i = 0 := by omega
      subst hi0
      rfl)
    rfl
  ⟨rfl, h.2.2.2.2.1, h.2.2.2.2.2.1,
    (h.2.2.2.2.2.2 ⟨⟨rfl, rfl, rfl, rfl⟩, rfl⟩).1,
    (h.2.2.2.2.2.2 ⟨⟨rfl, rfl, rfl, rfl⟩, rfl⟩).2⟩

/-! ## Admission wiring -/

/-- C1: in a run that reaches the test of `ENABLE_WEBHOOKS` and in which the webhooks of
the two resource kinds are set up without error, a handler is registered at
`/mutate-v1-pod` exactly when the value read for `ENABLE_WEBHOOKS` is not `false`; an
unset variable reads as the empty string, which is not `false`; and in every run in which
the value is `false` nothing is registered on the webhook server and no resource webhook
is set up. -/
theorem main_admission_gate (w : World) :
    (w.ReachesAdmissionGate → w.setupCollectorWebhook = none →
      w.setupInstrumentationWebhook = none →
      ((∃ hook, ("/mutate-v1-pod", hook) ∈ (main w).webhookServer) ↔
        os.Getenv w.env "ENABLE_WEBHOOKS" ≠ "false")) ∧
    (w.env "ENABLE_WEBHOOKS" = none →
      os.Getenv w.env "ENABLE_WEBHOOKS" = "" ∧ os.Getenv w.env "ENABLE_WEBHOOKS" ≠ "false") ∧
    (os.Getenv w.env "ENABLE_WEBHOOKS" = "false" →
      (main w).webhookServer = [] ∧ (main w).resourceWebhooks = []) := by
  refine ⟨fun h hc hi => ?_, fun h => ?_, fun h => ⟨?_, main_resourceWebhooks_disabled w h⟩⟩
  · rw [main_webhookServer_of_reaches w h, hc, hi]
    by_cases hg : os.Getenv w.env "ENABLE_WEBHOOKS" = "false"
    · simp [hg]
    · simp [hg]
  · have hget : os.Getenv w.env "ENABLE_WEBHOOKS" = "" := by
      simp [os.Getenv, os.LookupEnv, h]
    rw [hget]
    exact ⟨rfl, by decide⟩
  · rcases main_webhookServer_cases w with hnil | ⟨hne, -⟩
    · exact hnil
    · exact absurd h hne

/-- C1, with `ENABLE_WEBHOOKS` unset (a handler is registered) and set to `false` (none
is). -/
theorem main_admission_gate_witness :
    (∃ hook, ("/mutate-v1-pod", hook) ∈ (main (gateWorld none)).webhookServer) ∧
    (main (gateWorld (some "false"))).webhookServer = [] ∧
    (main (gateWorld (some "false"))).resourceWebhooks = [] :=
  ⟨((main_admission_gate (gateWorld none)).1 (gateWorld_reaches none) rfl rfl).2
      ((main_admission_gate (gateWorld none)).2.1 rfl).2,
   (main_admission_gate (gateWorld (some "false"))).2.2 rfl⟩

/-- C10: every handler that a run of `main` leaves on the webhook server sits at
`/mutate-v1-pod` and holds the chain of the sidecar mutator followed by the
instrumentation mutator; in a run that reaches the test of `ENABLE_WEBHOOKS` with a value
other than `false` and sets up the two resource webhooks, that handler is the one thing
on the webhook server. -/
theorem main_admission_chain (w : World) :
    (∀ path hook, (path, hook) ∈ (main w).webhookServer →
      path = "/mutate-v1-pod" ∧
      ∃ cfg, hook.podMutators = [.sidecarMutator cfg, .instrumentationMutator]) ∧
    (w.ReachesAdmissionGate → w.setupCollectorWebhook = none →
      w.setupInstrumentationWebhook = none → os.Getenv w.env "ENABLE_WEBHOOKS" ≠ "false" →
      (main w).webhookServer =
        [("/mutate-v1-pod",
          { cfg := main.newConfig w.version (cmd.defaultCtrlConfig w.version),
            podMutators :=
              [.sidecarMutator (main.newConfig w.version (cmd.defaultCtrlConfig w.version)),
               .instrumentationMutator] })]) := by
  refine ⟨fun path hook hmem => ?_, fun h hc hi hg => ?_⟩
  · rcases main_webhookServer_cases w with hnil | ⟨-, hone⟩
    · simp [hnil] at hmem
    · rw [hone] at hmem
      simp only [List.mem_singleton, Prod.mk.injEq] at hmem
      obtain ⟨hp, hh⟩ := hmem
      exact ⟨hp, _, by rw [hh]⟩
  · rw [main_webhookServer_of_reaches w h, hc, hi]
    simp [hg]

/-- C10, in a run with `ENABLE_WEBHOOKS` set to `true`. -/
theorem main_admission_chain_witness :
    (main (gateWorld (some "true"))).webhookServer.map (fun r => (r.1, r.2.podMutators)) =
      [("/mutate-v1-pod", [.sidecarMutator sampleConfig, .instrumentationMutator])] :=
  congrArg (List.map (fun r => (r.1, r.2.podMutators)))
    ((main_admission_chain (gateWorld (some "true"))).2 (gateWorld_reaches _) rfl rfl
      (by decide))

/-! ## Configuration -/

/-- C9: without a configuration file, `readConfig` returns no error and stores the
built-in defaults, whatever the version record, the loader and the command: the fixed
addresses and port, no election, an empty label filter, TLS 1.2 without a cipher list,
and for each component its registry path followed by `:` and its version; the metrics
address of the manager options is the one of the stored configuration.  The root command
of `NewRootCommand` holds exactly this. -/
theorem readConfig_defaults (load : ConfigLoader) (c : cobra.Command) (v : version.Version) :
    (cmd.readConfig load c "" v).1 = none ∧
    ∃ rc, (cmd.readConfig load c "" v).2.ctx = some rc ∧
      (cmd.NewRootCommand load v).ctx = some rc ∧
      rc.CtrlConfig.MetricsAddr = ":8080" ∧
      rc.CtrlConfig.ProbeAddr = ":8081" ∧
      rc.CtrlConfig.PprofAddr = "" ∧
      rc.CtrlConfig.EnableLeaderElection = false ∧
      rc.CtrlConfig.WebhookPort = 9443 ∧
      rc.CtrlConfig.LabelsFilter = some [] ∧
      rc.CtrlConfig.TlsOpt.MinVersion = "VersionTLS12" ∧
      rc.CtrlConfig.TlsOpt.CipherSuites = none ∧
      rc.CtrlConfig.CollectorImage =
        "ghcr.io/open-telemetry/opentelemetry-collector-releases/opentelemetry-collector"
          ++ ":" ++ v.OpenTelemetryCollector ∧
      rc.CtrlConfig.TargetAllocatorImage =
        "ghcr.io/open-telemetry/opentelemetry-operator/target-allocator"
          ++ ":" ++ v.TargetAllocator ∧
      rc.CtrlConfig.OperatorOpAMPBridgeImage =
        "ghcr.io/open-telemetry/opentelemetry-operator/operator-opamp-bridge"
          ++ ":" ++ v.OperatorOpAMPBridge ∧
      rc.CtrlConfig.AutoInstrumentationJava =
        "ghcr.io/open-telemetry/opentelemetry-operator/autoinstrumentation-java"
          ++ ":" ++ v.AutoInstrumentationJava ∧
      rc.CtrlConfig.AutoInstrumentationNodeJS =
        "ghcr.io/open-telemetry/opentelemetry-operator/autoinstrumentation-nodejs"
          ++ ":" ++ v.AutoInstrumentationNodeJS ∧
      rc.CtrlConfig.AutoInstrumentationPython =
        "ghcr.io/open-telemetry/opentelemetry-operator/autoinstrumentation-python"
          ++ ":" ++ v.AutoInstrumentationPython ∧
      rc.CtrlConfig.AutoInstrumentationDotNet =
        "ghcr.io/open-telemetry/opentelemetry-operator/autoinstrumentation-dotnet"
          ++ ":" ++ v.AutoInstrumentationDotNet ∧
      rc.CtrlConfig.AutoInstrumentationGo =
        "ghcr.io/open-telemetry/opentelemetry-go-instrumentation/autoinstrumentation-go"
          ++ ":" ++ v.AutoInstrumentationGo ∧
      rc.CtrlConfig.AutoInstrumentationApacheHttpd =
        "ghcr.io/open-telemetry/opentelemetry-operator/autoinstrumentation-apache-httpd"
          ++ ":" ++ v.AutoInstrumentationApacheHttpd ∧
      rc.Options.Metrics.BindAddress = rc.CtrlConfig.MetricsAddr := by
  refine ⟨rfl, ⟨_, cmd.defaultCtrlConfig v⟩, rfl, cmd.NewRootCommand_ctx load v, ?_⟩
  simp [cmd.defaultCtrlConfig, Sprintf]

/-- C2: the root command holds the built-in defaults after `Execute`, whatever file the
`config` flag names: `readConfig` ran in `NewRootCommand` before the flag was parsed.
With `--config /etc/otel/config.yaml`, a file that sets the metrics address to `:9090`
and the collector image, the flag variable holds the path, the stored configuration and
the configuration that `main` hands to the pod webhook still hold the defaults, while
`readConfig` called with that path stores the values of the file. -/
theorem NewRootCommand_ignores_config_flag :
    (∀ (load : ConfigLoader) (v : version.Version) (configFlag : Option String)
        (verdict : Option GoError),
      ((cmd.NewRootCommand load v).Execute configFlag verdict).2.ctx =
        some { Options := { Scheme := cmd.scheme, Metrics := { BindAddress := ":8080" } },
               CtrlConfig := cmd.defaultCtrlConfig v }) ∧
    ((cmd.NewRootCommand overrideLoader sampleVersion).Execute
        (some "/etc/otel/config.yaml") none).2.configFile = "/etc/otel/config.yaml" ∧
    ((cmd.NewRootCommand overrideLoader sampleVersion).Execute
        (some "/etc/otel/config.yaml") none).2.ctx.map
          (fun rc => (rc.CtrlConfig.MetricsAddr, rc.CtrlConfig.CollectorImage)) =
      some (":8080",
        "ghcr.io/open-telemetry/opentelemetry-collector-releases/opentelemetry-collector:0.90.1") ∧
    (main overrideWorld).webhookServer.map (fun r => r.2.cfg.collectorImage) =
      ["ghcr.io/open-telemetry/opentelemetry-collector-releases/opentelemetry-collector:0.90.1"] ∧
    (cmd.readConfig overrideLoader sampleCommand "/etc/otel/config.yaml" sampleVersion).2.ctx.map
          (fun rc => (rc.CtrlConfig.MetricsAddr, rc.CtrlConfig.CollectorImage)) =
      some (":9090", "example.com/collector:1.0") := by
  refine ⟨fun load v configFlag verdict => ?_, by decide, by decide, by decide, by decide⟩
  simp [cobra.Command.Execute, cmd.NewRootCommand_ctx]

/-- C3, as stated, fails: a configuration whose collector image is empty passes
`Validate`, and `readConfig`, given a file that sets the collector image to the empty
string, returns no error and stores that configuration in the command context. -/
theorem Validate_accepts_empty_image :
    ({ cmd.defaultCtrlConfig sampleVersion with CollectorImage := "" } :
      v1alpha1.ProjectConfig).CollectorImage = "" ∧
    ({ cmd.defaultCtrlConfig sampleVersion with CollectorImage := "" } :
      v1alpha1.ProjectConfig).Validate = none ∧
    (cmd.readConfig emptyImageLoader sampleCommand "/etc/otel/config.yaml" sampleVersion).1 =
      none ∧
    (cmd.readConfig emptyImageLoader sampleCommand "/etc/otel/config.yaml"
        sampleVersion).2.ctx.map (fun rc => rc.CtrlConfig.CollectorImage) = some "" := by
  refine ⟨rfl, rfl, by decide, by decide⟩

/-- C3, amended: `Validate` returns no error for any configuration; `readConfig` either
returns no error and stores a `RootConfig` in the command context, or returns the error
of the loader wrapped in `unable to load the config file` and leaves the command as it
was; it never returns `controller config validation failed`. -/
theorem readConfig_validation_never_fails :
    (∀ c : v1alpha1.ProjectConfig, c.Validate = none) ∧
    ∀ (load : ConfigLoader) (c : cobra.Command) (configFile : String) (v : version.Version),
      ((cmd.readConfig load c configFile v).1 = none ∧
        ∃ rc, (cmd.readConfig load c configFile v).2.ctx = some rc) ∨
      (∃ e, (cmd.readConfig load c configFile v).1 =
          some (.wrap "unable to load the config file" e) ∧
        (cmd.readConfig load c configFile v).2 = c) := by
  refine ⟨fun _ => rfl, fun load c configFile v => ?_⟩
  by_cases hf : configFile = ""
  · left
    subst hf
    exact ⟨rfl, _, rfl⟩
  · cases hl : load ⟨cmd.scheme, ⟨(cmd.defaultCtrlConfig v).MetricsAddr⟩⟩ configFile
        (cmd.defaultCtrlConfig v) with
    | error e =>
      right
      exact ⟨e, by simp [cmd.readConfig, hf, hl], by simp [cmd.readConfig, hf, hl]⟩
    | ok r =>
      left
      obtain ⟨o, cc⟩ := r
      exact ⟨by simp [cmd.readConfig, hf, hl, v1alpha1.ProjectConfig.Validate],
        ⟨o, cc⟩, by simp [cmd.readConfig, hf, hl, v1alpha1.ProjectConfig.Validate]⟩

/-! ## Defaults of the instrumentation upgrade -/

/-- C11: the instrumentation upgrade that `addDependencies` hands to a manager accepting
everything takes its Java, NodeJS, Python, DotNet and Apache HTTPD defaults from the image
the configuration holds for that language, and its Go default from the DotNet image.  In
the sample run of `main` the Go default is the DotNet image, which differs from the Go
image of the configuration. -/
theorem addDependencies_go_default_from_dotnet :
    (∀ (mgr : Manager) (cfg : config.Config) (v : version.Version),
      (addDependencies (fun _ => none) mgr cfg v).2.runnables =
        mgr.runnables ++
          [.startAutoDetect cfg,
           .collectorUpgrade { Version := v },
           .instrumentationUpgrade
             { DefaultAutoInstJava := cfg.AutoInstrumentationJavaImage
               DefaultAutoInstNodeJS := cfg.AutoInstrumentationNodeJSImage
               DefaultAutoInstPython := cfg.AutoInstrumentationPythonImage
               DefaultAutoInstDotNet := cfg.AutoInstrumentationDotNetImage
               DefaultAutoInstGo := cfg.AutoInstrumentationDotNetImage
               DefaultAutoInstApacheHttpd := cfg.AutoInstrumentationApacheHttpdImage }]) ∧
    (main (gateWorld none)).runnables[2]? =
      some (.instrumentationUpgrade
        { DefaultAutoInstJava :=
            "ghcr.io/open-telemetry/opentelemetry-operator/autoinstrumentation-java:1.32.0"
          DefaultAutoInstNodeJS :=
            "ghcr.io/open-telemetry/opentelemetry-operator/autoinstrumentation-nodejs:0.44.0"
          DefaultAutoInstPython :=
            "ghcr.io/open-telemetry/opentelemetry-operator/autoinstrumentation-python:0.41b0"
          DefaultAutoInstDotNet :=
            "ghcr.io/open-telemetry/opentelemetry-operator/autoinstrumentation-dotnet:1.2.0"
          DefaultAutoInstGo :=
            "ghcr.io/open-telemetry/opentelemetry-operator/autoinstrumentation-dotnet:1.2.0"
          DefaultAutoInstApacheHttpd :=
            "ghcr.io/open-telemetry/opentelemetry-operator/autoinstrumentation-apache-httpd:1.0.3" }) ∧
    sampleConfig.AutoInstrumentationGoImage =
      "ghcr.io/open-telemetry/opentelemetry-go-instrumentation/autoinstrumentation-go:v0.8.0-alpha" ∧
    sampleConfig.AutoInstrumentationGoImage ≠ sampleConfig.AutoInstrumentationDotNetImage := by
  refine ⟨fun mgr cfg v => ?_, by decide, by decide, by decide⟩
  rw [addDependencies_accepted (fun _ => none) mgr cfg v (fun _ _ => rfl)]
  rfl

end OtelOperator
